import Mathlib

/-
Verification development for the `ai_text_reply` repository (src/app.py),
a Flask service with one main route, POST /suggest, plus GET /health,
GET /test and GET /.

The embedding below translates app.py into Lean:
  * JSON values are the inductive `JVal`; Python dicts with string keys are
    association lists (`JObj`) whose update operation `jset` replaces the
    value of an existing key in place, as Python dict assignment does.
  * Python string operations used by the code are modelled character-wise
    on `List Char`: `str.strip` as `pyStrip`, `str.replace` as `pyReplace`
    (leftmost, non-overlapping, left to right), `str.upper` applied to one
    character and `str.lower` via `Char.toUpper` and `Char.toLower`
    (the source only ever feeds ASCII through these paths).
  * The outcome of the external OpenAI call is the parameter `ApiOutcome`:
    the raw content string of a successful completion, or one of the three
    exception classes the code distinguishes.  An absent or invalid
    credential makes the openai client raise AuthenticationError, which is
    the `authError` outcome.
  * `json.loads` is modelled by the executable parser `jparse`; it accepts
    the JSON fragment the repository logic depends on (objects, arrays,
    strings with the common escapes, integers, true or false or null) and
    rejects fractional or exponent numerals and \u escapes, which no part
    of the repository relies on.
  * A request body is `ReqBody`: `unparseable` when `request.get_json()`
    raises (a body that is not valid JSON), or `parsed v` for the decoded
    value.  Flask converts a raised BadRequest inside the handler`s
    catch-all `except Exception` into the 500 payload, which the model
    reproduces.
  * Each handler returns a `Resp`: HTTP status, JSON body, and the number
    of external completion-API calls performed while handling the request.
-/

set_option maxRecDepth 8192

namespace AiTextReply

/-- JSON values, as produced by json.loads and jsonify in app.py. -/
inductive JVal where
  | jnull : JVal
  | jbool : Bool → JVal
  | jnum : Int → JVal
  | jstr : String → JVal
  | jarr : List JVal → JVal
  | jobj : List (String × JVal) → JVal

/-- A Python dict with string keys (the shape every payload in app.py has). -/
abbrev JObj := List (String × JVal)

/-- Lookup of a key in a dict (first matching entry). -/
def jget : JObj → String → Option JVal
  | [], _ => none
  | (k, v) :: rest, key => if k = key then some v else jget rest key

/-- Python dict assignment `d[key] = v`: replace in place if the key exists,
otherwise append the new entry. -/
def jset : JObj → String → JVal → JObj
  | [], key, v => [(key, v)]
  | (k, w) :: rest, key, v =>
    if k = key then (k, v) :: rest else (k, w) :: jset rest key v

/-- Python membership test `key in d` for a dict. -/
def jhas (o : JObj) (key : String) : Bool :=
  (jget o key).isSome

/-- Lookup of a key inside a JSON value, when that value is an object. -/
def jgetV : JVal → String → Option JVal
  | .jobj o, key => jget o key
  | _, _ => none

/-- Lookup returning the string stored under a key, if any. -/
def jgetStr (v : JVal) (key : String) : Option String :=
  match jgetV v key with
  | some (.jstr s) => some s
  | _ => none

/-- Lookup returning the boolean stored under a key, if any. -/
def jgetBool (v : JVal) (key : String) : Option Bool :=
  match jgetV v key with
  | some (.jbool b) => some b
  | _ => none

/-- Length of the array stored under a key, if the value there is an array. -/
def jarrLen (v : JVal) (key : String) : Option Nat :=
  match jgetV v key with
  | some (.jarr xs) => some xs.length
  | _ => none

/-- Membership of a key in a JSON value that is an object. -/
def jhasV (v : JVal) (key : String) : Bool :=
  match v with
  | .jobj o => jhas o key
  | _ => false

/-- Python truthiness of a decoded JSON value (`if not data`). -/
def truthy : JVal → Bool
  | .jnull => false
  | .jbool b => b
  | .jnum n => n != 0
  | .jstr s => !s.isEmpty
  | .jarr xs => !xs.isEmpty
  | .jobj kvs => !kvs.isEmpty

/-- Characters removed by Python str.strip() with no argument (the ASCII
whitespace set; the inputs of interest contain no exotic Unicode spaces). -/
def isPySpace (c : Char) : Bool :=
  c = ' ' || c = '\t' || c = '\n' || c = '\r' || c = '\x0b' || c = '\x0c'

/-- Python `text.strip()`: drop leading and trailing whitespace. -/
def pyStrip (s : String) : String :=
  String.mk (((s.data.dropWhile isPySpace).reverse.dropWhile isPySpace).reverse)

/-- Substring test: does `pat` occur contiguously inside the list? -/
def hasSub (pat : List Char) : List Char → Bool
  | [] => pat.isEmpty
  | c :: cs => pat.isPrefixOf (c :: cs) || hasSub pat cs

/-- Scanner for Python `str.replace` with a non-empty pattern: leftmost
match, non-overlapping, the replacement text is not rescanned.  The first
argument is fuel; each step consumes at least one input character and
exactly one unit of fuel, so fuel equal to the input length is enough and
the fuel-exhaustion branch is never taken when called that way. -/
def replaceAux (o : Char) (os newL : List Char) : Nat → List Char → List Char
  | 0, l => l
  | _ + 1, [] => []
  | f + 1, c :: cs =>
    if (o :: os).isPrefixOf (c :: cs) then
      newL ++ replaceAux o os newL f (cs.drop os.length)
    else
      c :: replaceAux o os newL f cs

/-- Python `s.replace(old, new)` on character lists.  The empty-pattern case
inserts the replacement before every character and at the end, exactly as
Python does; app.py never uses an empty pattern. -/
def pyReplaceL (oldL newL s : List Char) : List Char :=
  match oldL with
  | [] => newL ++ s.foldr (fun c acc => c :: (newL ++ acc)) []
  | o :: os => replaceAux o os newL s.length s

/-- Python `s.replace(old, new)`. -/
def pyReplace (s old new : String) : String :=
  String.mk (pyReplaceL old.data new.data s.data)

/-- Python `cleaned[0].upper() + cleaned[1:]` guarded by non-emptiness
(app.py lines 136-137). -/
def capFirst (s : String) : String :=
  match s.data with
  | [] => s
  | c :: cs => String.mk (c.toUpper :: cs)

/-- Python `cleaned.lower()`. -/
def pyLower (s : String) : String :=
  String.mk (s.data.map Char.toLower)

/-- The substitution table of get_fallback_response (app.py lines 120-130).
Every pattern carries a space on both sides. -/
def fixes : List (String × String) :=
  [(" helo ", " hello "),
   (" im ", " I'm "),
   (" cant ", " can't "),
   (" dont ", " don't "),
   (" wont ", " won't "),
   (" ur ", " your "),
   (" u ", " you "),
   (" pls ", " please "),
   (" thx ", " thanks ")]

/-- get_fallback_response (app.py lines 116-151): apply the substitution
table in order, capitalize the first character, and build the static reply
payload around the cleaned text. -/
def get_fallback_response (text : String) : JObj :=
  let cleaned := capFirst (fixes.foldl (fun acc p => pyReplace acc p.1 p.2) text)
  [("suggested_replies",
     .jarr [.jstr "Thanks! 😊", .jstr "Got it, thanks!", .jstr "Okay, noted!"]),
   ("corrected_text", .jstr cleaned),
   ("similar_phrases",
     .jarr [.jstr cleaned, .jstr (cleaned ++ "!"),
            .jstr ("Hey, " ++ pyLower cleaned)])]

/-- The payload returned when the OpenAI call raises AuthenticationError
(app.py lines 96-103). -/
def authErrorPayload (user_text : String) : JObj :=
  [("error", .jstr "OpenAI API key is invalid"),
   ("suggested_replies",
     .jarr [.jstr "Please check API key", .jstr "Setup required", .jstr "Contact admin"]),
   ("corrected_text", .jstr user_text),
   ("similar_phrases", .jarr [.jstr user_text])]

/-- The payload returned when the OpenAI call raises RateLimitError
(app.py lines 104-111). -/
def rateLimitPayload (user_text : String) : JObj :=
  [("error", .jstr "Rate limit exceeded"),
   ("suggested_replies",
     .jarr [.jstr "Try again later", .jstr "Server busy", .jstr "Please wait"]),
   ("corrected_text", .jstr user_text),
   ("similar_phrases", .jarr [.jstr user_text])]

/-- Whitespace skipped between JSON tokens by json.loads. -/
def skipWs (cs : List Char) : List Char :=
  cs.dropWhile (fun c => c = ' ' || c = '\t' || c = '\n' || c = '\r')

/-- Body of a JSON string literal, after the opening quote: returns the
decoded characters and the input past the closing quote.  The common
escapes are decoded; \u escapes are rejected (nothing in app.py depends on
them). -/
def parseStrChars : List Char → Option (List Char × List Char)
  | [] => none
  | '"' :: cs => some ([], cs)
  | '\\' :: e :: cs2 =>
    match (if e = '"' then some '"' else if e = '\\' then some '\\'
           else if e = '/' then some '/' else if e = 'n' then some '\n'
           else if e = 't' then some '\t' else if e = 'r' then some '\r'
           else if e = 'b' then some '\x08' else if e = 'f' then some '\x0c'
           else none) with
    | none => none
    | some ch =>
      match parseStrChars cs2 with
      | none => none
      | some (s, r) => some (ch :: s, r)
  | '\\' :: [] => none
  | c :: cs =>
    match parseStrChars cs with
    | none => none
    | some (s, r) => some (c :: s, r)

/-- Integer JSON numerals.  Fractional and exponent numerals are rejected;
no repository behaviour the claims touch depends on them. -/
def parseNum (cs : List Char) : Option (JVal × List Char) :=
  let p := match cs with
    | '-' :: rest => (true, rest)
    | _ => (false, cs)
  let digits := p.2.takeWhile Char.isDigit
  let rest := p.2.dropWhile Char.isDigit
  if digits.isEmpty then none
  else
    match rest with
    | '.' :: _ => none
    | 'e' :: _ => none
    | 'E' :: _ => none
    | _ =>
      let n : Nat := digits.foldl (fun acc c => acc * 10 + (c.toNat - 48)) 0
      some (.jnum (if p.1 then -(n : Int) else (n : Int)), rest)

/-- Mode of the JSON recursive descent: a single value, the items of a
non-empty array (with the elements read so far), or the entries of a
non-empty object (with the entries read so far). -/
inductive PMode where
  | val : PMode
  | arr : List JVal → PMode
  | obj : JObj → PMode

/-- Recursive-descent JSON reader (a model of json.loads), structurally
recursive on fuel.  In object mode, later duplicate keys replace earlier
ones, as Python dict construction does. -/
def parseJ : Nat → PMode → List Char → Option (JVal × List Char)
  | 0, _, _ => none
  | f + 1, .val, input =>
    match skipWs input with
    | [] => none
    | c :: rest =>
      if c = '"' then
        match parseStrChars rest with
        | none => none
        | some (s, r) => some (.jstr (String.mk s), r)
      else if c = '[' then
        match skipWs rest with
        | ']' :: r2 => some (.jarr [], r2)
        | r1 => parseJ f (.arr []) r1
      else if c = '{' then
        match skipWs rest with
        | '}' :: r2 => some (.jobj [], r2)
        | r1 => parseJ f (.obj []) r1
      else if c = 't' then
        if ['r', 'u', 'e'].isPrefixOf rest then some (.jbool true, rest.drop 3) else none
      else if c = 'f' then
        if ['a', 'l', 's', 'e'].isPrefixOf rest then some (.jbool false, rest.drop 4) else none
      else if c = 'n' then
        if ['u', 'l', 'l'].isPrefixOf rest then some (.jnull, rest.drop 3) else none
      else parseNum (c :: rest)
  | f + 1, .arr acc, input =>
    match parseJ f .val input with
    | none => none
    | some (v, rest) =>
      match skipWs rest with
      | ',' :: r2 => parseJ f (.arr (acc ++ [v])) r2
      | ']' :: r2 => some (.jarr (acc ++ [v]), r2)
      | _ => none
  | f + 1, .obj acc, input =>
    match skipWs input with
    | c :: rest =>
      if c = '"' then
        match parseStrChars rest with
        | none => none
        | some (k, r1) =>
          match skipWs r1 with
          | ':' :: r2 =>
            match parseJ f .val r2 with
            | none => none
            | some (v, r3) =>
              match skipWs r3 with
              | ',' :: r4 => parseJ f (.obj (jset acc (String.mk k) v)) r4
              | '}' :: r4 => some (.jobj (jset acc (String.mk k) v), r4)
              | _ => none
          | _ => none
      else none
    | [] => none

/-- Python json.loads on a string: one JSON value, and nothing but
whitespace after it.  The fuel is generous: every unit spent in the
descent consumes input, so a linear budget can never run out. -/
def jparse (s : String) : Option JVal :=
  match parseJ (4 * s.length + 8) .val s.data with
  | some (v, rest) => if (skipWs rest).isEmpty then some v else none
  | none => none

/-- The regex step `re.search(r'\x7b.*\x7d', content, re.DOTALL)` of app.py
line 81: with a greedy dot-all body it matches from the first opening brace
to the last closing brace at or after it, or fails. -/
def extractBraced (cs : List Char) : Option (List Char) :=
  let after := cs.dropWhile (fun c => !(c = '{'))
  match after with
  | [] => none
  | b :: rest =>
    if rest.contains '}' then
      some (b :: ((rest.reverse.dropWhile (fun c => !(c = '}'))).reverse))
    else none

/-- Python membership `key in result` for an arbitrary value: key lookup on
dicts, element equality on lists, substring test on strings, and a
TypeError (modelled as `none`) on null, booleans and numbers. -/
def pyIn (key : String) : JVal → Option Bool
  | .jobj o => some (jhas o key)
  | .jarr xs => some (xs.any (fun x => match x with | .jstr s => s == key | _ => false))
  | .jstr s => some (hasSub key.data s.data)
  | _ => none

/-- The validation `all(key in result for key in required_keys)` of app.py
lines 86-87, with a TypeError surfacing as `none`. -/
def reqKeysOk (v : JVal) : Option Bool :=
  match pyIn "suggested_replies" v with
  | none => none
  | some b1 =>
    match pyIn "corrected_text" v with
    | none => none
    | some b2 =>
      match pyIn "similar_phrases" v with
      | none => none
      | some b3 => some (b1 && b2 && b3)

/-- Processing of a successful completion (app.py lines 74-94): extract the
first brace-delimited substring, parse it as JSON, and keep the value only
when the three required keys are present.  Any failure (no match, a parse
error, a TypeError during the key check, or a missing key) yields `none`
and the caller degrades to the fallback. -/
def tryModel (content : String) : Option JVal :=
  match extractBraced content.data with
  | none => none
  | some sub =>
    match jparse (String.mk sub) with
    | none => none
    | some v =>
      match reqKeysOk v with
      | some true => some v
      | _ => none

/-- Outcome of the single external completion call: the raw content string
on success, or the exception class raised.  A missing credential makes the
openai client raise AuthenticationError. -/
inductive ApiOutcome where
  | ok : String → ApiOutcome
  | authError : ApiOutcome
  | rateLimitError : ApiOutcome
  | otherError : ApiOutcome

/-- get_smart_suggestions (app.py lines 34-114) as a function of the call
outcome: a validated model object is returned as-is; auth and rate-limit
exceptions return their fixed payloads; everything else degrades to
get_fallback_response.  The function is total: no failure mode escapes. -/
def get_smart_suggestions (oc : ApiOutcome) (user_text : String) : JVal :=
  match oc with
  | .ok content =>
    match tryModel content with
    | some v => v
    | none => .jobj (get_fallback_response user_text)
  | .authError => .jobj (authErrorPayload user_text)
  | .rateLimitError => .jobj (rateLimitPayload user_text)
  | .otherError => .jobj (get_fallback_response user_text)

/-- The validated model object, when the outcome is a successful completion
whose extracted JSON is an object with the required keys. -/
def modelObj (oc : ApiOutcome) : Option JObj :=
  match oc with
  | .ok c =>
    match tryModel c with
    | some (.jobj o) => some o
    | _ => none
  | _ => none

/-- Request body of POST /suggest: `unparseable` when `request.get_json()`
raises on a body that is not valid JSON, otherwise the decoded value. -/
inductive ReqBody where
  | unparseable : ReqBody
  | parsed : JVal → ReqBody

/-- An HTTP response together with the number of external completion-API
calls made while producing it. -/
structure Resp where
  status : Nat
  body : JVal
  apiCalls : Nat

/-- The 500 payload of the catch-all handler (app.py lines 199-206).  The
`message` field holds `str(e)`, whose exact text depends on the exception;
it is modelled by a fixed placeholder that no claim inspects. -/
def err500body (orig : String) : JVal :=
  .jobj [("error", .jstr "Internal server error"),
         ("message", .jstr "exception"),
         ("original_text", .jstr orig),
         ("suggested_replies", .jarr [.jstr "Server error", .jstr "Please try again"]),
         ("corrected_text", .jstr "Error occurred"),
         ("similar_phrases", .jarr [.jstr "Try again later"])]

/-- Metadata merged into the generator result (app.py lines 190-193):
original_text, success (true exactly when no error key is present), and
characters_processed. -/
def addMeta (o : JObj) (user_text : String) : JObj :=
  let o1 := jset o "original_text" (.jstr user_text)
  let o2 := jset o1 "success" (.jbool (!(jhas o1 "error")))
  jset o2 "characters_processed" (.jnum (user_text.length : Int))

/-- The /suggest handler after `user_text = data.get('text', '').strip()`
(app.py lines 174-195): empty and over-length rejections, then the
generator call and metadata merge.  A generator result that is not a dict
makes `result['original_text'] = user_text` raise a TypeError, which the
catch-all turns into the 500 payload (with user_text bound); the lemma
`gen_isObj` below shows this branch is unreachable, because the extracted
model JSON always starts with a brace and so can only parse to an object. -/
def suggestWithText (oc : ApiOutcome) (user_text : String) : Resp :=
  if user_text.isEmpty then
    ⟨400, .jobj [("error", .jstr "Empty text"),
                 ("example", .jstr "Send \x7b'text': 'hello world'\x7d")], 0⟩
  else if user_text.length > 500 then
    ⟨400, .jobj [("error", .jstr "Text too long (max 500 characters)"),
                 ("received_length", .jnum (user_text.length : Int))], 0⟩
  else
    match get_smart_suggestions oc user_text with
    | .jobj o => ⟨200, .jobj (addMeta o user_text), 1⟩
    | _ => ⟨500, err500body user_text, 1⟩

/-- The POST /suggest handler (app.py lines 157-206).  An unparseable body
raises inside `request.get_json()` and the catch-all answers 500 with
original_text "unknown"; a falsy decoded body answers 400; a non-dict body
or a non-string text value raises an AttributeError before user_text is
bound, again answered by the 500 payload with original_text "unknown". -/
def suggest (oc : ApiOutcome) (body : ReqBody) : Resp :=
  match body with
  | .unparseable => ⟨500, err500body "unknown", 0⟩
  | .parsed data =>
    if !(truthy data) then
      ⟨400, .jobj [("error", .jstr "No JSON data received"),
                   ("solution", .jstr "Send JSON: \x7b'text': 'your message'\x7d")], 0⟩
    else
      match data with
      | .jobj kvs =>
        match jget kvs "text" with
        | some (.jstr s) => suggestWithText oc (pyStrip s)
        | none => suggestWithText oc (pyStrip "")
        | some _ => ⟨500, err500body "unknown", 0⟩
      | _ => ⟨500, err500body "unknown", 0⟩

/-- Python truthiness of the module-level credential
`openai.api_key = os.getenv("OPENAI_API_KEY")`: `none` when the variable is
unset; an empty string is also falsy. -/
def pyTruthyKey : Option String → Bool
  | none => false
  | some s => !s.isEmpty

/-- The GET /health handler (app.py lines 208-224), a pure function of the
credential: it performs no external completion call. -/
def health (apiKey : Option String) : Resp :=
  let configured := pyTruthyKey apiKey
  ⟨200,
   .jobj [("status", .jstr (if configured then "healthy" else "warning_no_key")),
          ("service", .jstr "English Assistant API"),
          ("version", .jstr "1.0"),
          ("openai_configured", .jbool configured),
          ("endpoints",
            .jobj [("POST /suggest", .jstr "Get replies + corrections"),
                   ("GET /health", .jstr "This health check"),
                   ("GET /test", .jstr "Example response")]),
          ("usage", .jstr "Send POST to /suggest with \x7b'text': 'your message'\x7d")],
   0⟩

/-- Text used by the over-length witness: 501 copies of a letter. -/
def longText : String :=
  String.mk (List.replicate 501 'a')

/-- A completion content probing the model path: a JSON object carrying the
three required keys whose suggested_replies array has only two entries. -/
def twoReplyContent : String :=
  "\x7b\"suggested_replies\": [\"a\", \"b\"], \"corrected_text\": \"x\", \"similar_phrases\": [\"y\"]\x7d"

/-- Lookup after an update: the updated key holds the new value, every
other key is untouched. -/
theorem jget_jset (o : JObj) (k' : String) (v : JVal) (k : String) :
    jget (jset o k' v) k = if k' = k then some v else jget o k := by
  induction o with
  | nil => simp [jget, jset]
  | cons p rest ih =>
    obtain ⟨a, b⟩ := p
    by_cases hak : a = k'
    · subst hak
      by_cases hk : a = k
      · subst hk
        simp [jget, jset]
      · simp [jget, jset, hk]
    · by_cases hk : a = k
      · subst hk
        have : ¬(k' = a) := fun h => hak h.symm
        simp [jget, jset, hak, this]
      · simp [jget, jset, hak, hk, ih]

theorem jget_jset_self (o : JObj) (k : String) (v : JVal) :
    jget (jset o k v) k = some v := by
  simp [jget_jset]

theorem jget_jset_ne (o : JObj) (k' : String) (v : JVal) (k : String)
    (h : k' ≠ k) : jget (jset o k' v) k = jget o k := by
  simp [jget_jset, h]

theorem jhas_jset_ne (o : JObj) (k' : String) (v : JVal) (k : String)
    (h : k' ≠ k) : jhas (jset o k' v) k = jhas o k := by
  simp [jhas, jget_jset_ne o k' v k h]

/-- Presence of a key survives any update. -/
theorem jhas_jset_mono (o : JObj) (k' : String) (v : JVal) (k : String)
    (h : jhas o k = true) : jhas (jset o k' v) k = true := by
  by_cases hk : k' = k
  · subst hk
    simp [jhas, jget_jset_self]
  · rwa [jhas_jset_ne o k' v k hk]

/-- The original_text metadata field holds the stripped input. -/
theorem jget_addMeta_orig (o : JObj) (t : String) :
    jget (addMeta o t) "original_text" = some (.jstr t) := by
  unfold addMeta
  rw [jget_jset_ne _ _ _ _ (by decide), jget_jset_ne _ _ _ _ (by decide),
    jget_jset_self]

/-- The success metadata field records the absence of an error key in the
generator result. -/
theorem jget_addMeta_success (o : JObj) (t : String) :
    jget (addMeta o t) "success" = some (.jbool (!(jhas o "error"))) := by
  unfold addMeta
  rw [jget_jset_ne _ _ _ _ (by decide), jget_jset_self,
    jhas_jset_ne _ _ _ _ (by decide)]

/-- Keys other than the three metadata keys read through addMeta. -/
theorem jget_addMeta_other (o : JObj) (t : String) (k : String)
    (h1 : k ≠ "original_text") (h2 : k ≠ "success")
    (h3 : k ≠ "characters_processed") :
    jget (addMeta o t) k = jget o k := by
  unfold addMeta
  rw [jget_jset_ne _ _ _ _ (Ne.symm h3), jget_jset_ne _ _ _ _ (Ne.symm h2),
    jget_jset_ne _ _ _ _ (Ne.symm h1)]

/-- Presence of a key survives the metadata merge. -/
theorem jhas_addMeta_mono (o : JObj) (t : String) (k : String)
    (h : jhas o k = true) : jhas (addMeta o t) k = true := by
  unfold addMeta
  exact jhas_jset_mono _ _ _ _ (jhas_jset_mono _ _ _ _ (jhas_jset_mono _ _ _ _ h))

/-- A dropWhile scan that discards everything except an opening brace
leaves either nothing or a list starting with the brace. -/
theorem dropWhile_brace (cs : List Char) :
    (cs.dropWhile (fun c => !(c = '{'))) = []
      ∨ ∃ rest, (cs.dropWhile (fun c => !(c = '{'))) = '{' :: rest := by
  induction cs with
  | nil => left; rfl
  | cons c cs ih =>
    by_cases h : c = '{'
    · subst h
      right
      exact ⟨cs, by simp [List.dropWhile]⟩
    · simpa [List.dropWhile, h] using ih

/-- The regex extract, when it matches, starts with an opening brace. -/
theorem extractBraced_head (cs : List Char) (sub : List Char)
    (h : extractBraced cs = some sub) : ∃ rest, sub = '{' :: rest := by
  unfold extractBraced at h
  rcases dropWhile_brace cs with h0 | ⟨rest, h0⟩
  · rw [h0] at h
    simp at h
  · rw [h0] at h
    simp at h
    exact ⟨_, h.2.symm⟩

/-- Object entries parse only to object values. -/
theorem parseJ_obj (f : Nat) (acc : JObj) (input : List Char)
    (v : JVal) (r : List Char) (h : parseJ f (.obj acc) input = some (v, r)) :
    ∃ o, v = .jobj o := by
  induction f generalizing input acc v r with
  | zero => simp [parseJ] at h
  | succ f ih =>
    unfold parseJ at h
    repeat' split at h
    all_goals try simp at h
    all_goals try exact ih _ _ _ _ h
    all_goals exact ⟨_, h.1.symm⟩

/-- A JSON text beginning with an opening brace parses only to an object. -/
theorem parseJ_brace (f : Nat) (rest : List Char) (v : JVal) (r : List Char)
    (h : parseJ f .val ('{' :: rest) = some (v, r)) : ∃ o, v = .jobj o := by
  cases f with
  | zero => simp [parseJ] at h
  | succ f =>
    have hred : parseJ (f + 1) .val ('{' :: rest)
        = (match skipWs rest with
           | '}' :: r2 => some (.jobj [], r2)
           | r1 => parseJ f (.obj []) r1) := rfl
    rw [hred] at h
    split at h
    · simp at h
      exact ⟨_, h.1.symm⟩
    · exact parseJ_obj _ _ _ _ _ h

/-- json.loads applied to a brace-delimited extract returns an object when
it succeeds. -/
theorem jparse_brace (rest : List Char) (v : JVal)
    (h : jparse (String.mk ('{' :: rest)) = some v) : ∃ o, v = .jobj o := by
  unfold jparse at h
  split at h
  · next w p heq =>
    obtain ⟨o, ho⟩ := parseJ_brace _ _ w p heq
    split at h
    · exact ⟨o, Option.some.inj h ▸ ho⟩
    · simp at h
  · simp at h

/-- The validated model value is always an object. -/
theorem tryModel_obj (c : String) (v : JVal) (h : tryModel c = some v) :
    ∃ o, v = .jobj o := by
  unfold tryModel at h
  split at h
  · simp at h
  · next sub hsub =>
    split at h
    · simp at h
    · next w hw =>
      obtain ⟨rest, hrest⟩ := extractBraced_head _ _ hsub
      split at h
      · exact jparse_brace rest v (by rw [hrest] at hw; rw [hw, Option.some.inj h])
      · simp at h

/-- The validated model value passed the key check. -/
theorem tryModel_req (c : String) (v : JVal) (h : tryModel c = some v) :
    reqKeysOk v = some true := by
  unfold tryModel at h
  split at h
  · simp at h
  · split at h
    · simp at h
    · split at h
      · next hr => rw [← Option.some.inj h]; exact hr
      · simp at h

/-- Passing the key check on an object means all three keys are present. -/
theorem reqKeysOk_obj (o : JObj) (h : reqKeysOk (.jobj o) = some true) :
    jhas o "suggested_replies" = true ∧ jhas o "corrected_text" = true
      ∧ jhas o "similar_phrases" = true := by
  simp [reqKeysOk, pyIn] at h
  tauto

/-- The generator result is always a Python dict: the source's TypeError
path after a non-dict model result is unreachable. -/
theorem gen_isObj (oc : ApiOutcome) (t : String) :
    ∃ o, get_smart_suggestions oc t = .jobj o := by
  cases oc with
  | ok content =>
    cases htm : tryModel content with
    | none => exact ⟨get_fallback_response t, by simp [get_smart_suggestions, htm]⟩
    | some v =>
      obtain ⟨o, rfl⟩ := tryModel_obj _ _ htm
      exact ⟨o, by simp [get_smart_suggestions, htm]⟩
  | authError => exact ⟨_, rfl⟩
  | rateLimitError => exact ⟨_, rfl⟩
  | otherError => exact ⟨_, rfl⟩

/-- Reduction of /suggest on a dict body whose text entry is a string. -/
theorem suggest_textfield (oc : ApiOutcome) (kvs : JObj) (s : String)
    (hget : jget kvs "text" = some (.jstr s)) :
    suggest oc (.parsed (.jobj kvs)) = suggestWithText oc (pyStrip s) := by
  cases kvs with
  | nil => simp [jget] at hget
  | cons p rest => simp [suggest, truthy, hget]

/-- Reduction of the validated branch of /suggest: non-empty text within
the cap answers 200 with the metadata merged onto the generator result. -/
theorem suggestWithText_ok (oc : ApiOutcome) (t : String) (o : JObj)
    (hne : t ≠ "") (hlen : t.length ≤ 500)
    (hg : get_smart_suggestions oc t = .jobj o) :
    suggestWithText oc t = ⟨200, .jobj (addMeta o t), 1⟩ := by
  have h1 : t.isEmpty = false := by
    rcases h : t.isEmpty with _ | _
    · rfl
    · exact absurd ((String.isEmpty_iff t).mp h) hne
  have h2 : ¬(t.length > 500) := by omega
  simp [suggestWithText, h1, h2, hg]

/-- A non-empty isEmpty test yields a non-empty string. -/
theorem ne_of_isEmpty_false (t : String) (h : t.isEmpty = false) : t ≠ "" := by
  intro he
  rw [he] at h
  exact absurd h (by decide)

/-- A pattern that does not occur in the input leaves the replacement scan
unchanged, for any fuel. -/
theorem replaceAux_no_occur (o : Char) (os newL : List Char) (f : Nat)
    (cs : List Char) (h : hasSub (o :: os) cs = false) :
    replaceAux o os newL f cs = cs := by
  induction f generalizing cs with
  | zero => rfl
  | succ f ih =>
    cases cs with
    | nil => rfl
    | cons c cs =>
      rw [hasSub, Bool.or_eq_false_iff] at h
      simp [replaceAux, h.1, ih cs h.2]

/-- Every payload the generator can return carries the three advertised
keys: the validated model object by the key check, and each of the fixed
payloads by construction. -/
theorem gen_keys (oc : ApiOutcome) (t : String) (o : JObj)
    (hg : get_smart_suggestions oc t = .jobj o) :
    jhas o "corrected_text" = true ∧ jhas o "suggested_replies" = true
      ∧ jhas o "similar_phrases" = true := by
  cases oc with
  | ok content =>
    cases htm : tryModel content with
    | none =>
      simp [get_smart_suggestions, htm] at hg
      subst hg
      exact ⟨rfl, rfl, rfl⟩
    | some v =>
      simp [get_smart_suggestions, htm] at hg
      subst hg
      obtain ⟨h1, h2, h3⟩ := reqKeysOk_obj o (tryModel_req _ _ htm)
      exact ⟨h2, h1, h3⟩
  | authError =>
    simp [get_smart_suggestions] at hg
    subst hg
    exact ⟨rfl, rfl, rfl⟩
  | rateLimitError =>
    simp [get_smart_suggestions] at hg
    subst hg
    exact ⟨rfl, rfl, rfl⟩
  | otherError =>
    simp [get_smart_suggestions] at hg
    subst hg
    exact ⟨rfl, rfl, rfl⟩

/-- The suggested_replies entry of the generator result: exactly three
entries whenever the result is not a validated model object, and the model
value verbatim when it is. -/
theorem gen_replies (oc : ApiOutcome) (t : String) (o : JObj)
    (hg : get_smart_suggestions oc t = .jobj o) :
    (modelObj oc = none →
      ∃ xs, jget o "suggested_replies" = some (.jarr xs) ∧ xs.length = 3)
      ∧ (∀ m, modelObj oc = some m →
          jget o "suggested_replies" = jget m "suggested_replies") := by
  cases oc with
  | ok content =>
    cases htm : tryModel content with
    | none =>
      simp [get_smart_suggestions, htm] at hg
      subst hg
      constructor
      · intro _
        exact ⟨_, rfl, rfl⟩
      · intro m hm
        simp [modelObj, htm] at hm
    | some v =>
      simp [get_smart_suggestions, htm] at hg
      subst hg
      constructor
      · intro hnone
        simp [modelObj, htm] at hnone
      · intro m hm
        simp [modelObj, htm] at hm
        subst hm
        rfl
  | authError =>
    simp [get_smart_suggestions] at hg
    subst hg
    exact ⟨fun _ => ⟨_, rfl, rfl⟩, fun m hm => by simp [modelObj] at hm⟩
  | rateLimitError =>
    simp [get_smart_suggestions] at hg
    subst hg
    exact ⟨fun _ => ⟨_, rfl, rfl⟩, fun m hm => by simp [modelObj] at hm⟩
  | otherError =>
    simp [get_smart_suggestions] at hg
    subst hg
    exact ⟨fun _ => ⟨_, rfl, rfl⟩, fun m hm => by simp [modelObj] at hm⟩

/-- A response of /suggest whose body has success set to true comes from
the validated 200 path: its body is the generator object plus metadata. -/
theorem suggest_success_shape (oc : ApiOutcome) (body : ReqBody)
    (h : jgetBool (suggest oc body).body "success" = some true) :
    ∃ t o, get_smart_suggestions oc t = .jobj o
      ∧ (suggest oc body).body = .jobj (addMeta o t) := by
  cases body with
  | unparseable => exact absurd h (by simp [suggest, err500body, jgetBool, jgetV, jget])
  | parsed data =>
    rcases ht : truthy data with _ | _
    · exact absurd h (by simp [suggest, ht, jgetBool, jgetV, jget])
    · cases data with
      | jobj kvs =>
        rcases hx : jget kvs "text" with _ | v
        · have e : suggest oc (.parsed (.jobj kvs)) = suggestWithText oc (pyStrip "") := by
            simp [suggest, ht, hx]
          have e2 : suggestWithText oc (pyStrip "")
              = ⟨400, .jobj [("error", .jstr "Empty text"),
                  ("example", .jstr "Send \x7b'text': 'hello world'\x7d")], 0⟩ := rfl
          rw [e, e2] at h
          exact absurd h (by simp [jgetBool, jgetV, jget])
        · cases v with
          | jstr s =>
            have e : suggest oc (.parsed (.jobj kvs)) = suggestWithText oc (pyStrip s) :=
              suggest_textfield oc kvs s hx
            rw [e] at h ⊢
            rcases hemp : (pyStrip s).isEmpty with _ | _
            · rcases hlen : decide ((pyStrip s).length > 500) with _ | _
              · have hlen' : ¬((pyStrip s).length > 500) := of_decide_eq_false hlen
                obtain ⟨o, hg⟩ := gen_isObj oc (pyStrip s)
                have hok := suggestWithText_ok oc (pyStrip s) o
                  (ne_of_isEmpty_false _ hemp) (by omega) hg
                rw [hok]
                exact ⟨pyStrip s, o, hg, rfl⟩
              · have hlen' : (pyStrip s).length > 500 := of_decide_eq_true hlen
                have h400 : suggestWithText oc (pyStrip s)
                    = ⟨400, .jobj [("error", .jstr "Text too long (max 500 characters)"),
                        ("received_length", .jnum ((pyStrip s).length : Int))], 0⟩ := by
                  simp [suggestWithText, hemp, hlen']
                rw [h400] at h
                exact absurd h (by simp [jgetBool, jgetV, jget])
            · have h400 : suggestWithText oc (pyStrip s)
                  = ⟨400, .jobj [("error", .jstr "Empty text"),
                      ("example", .jstr "Send \x7b'text': 'hello world'\x7d")], 0⟩ := by
                simp [suggestWithText, hemp]
              rw [h400] at h
              exact absurd h (by simp [jgetBool, jgetV, jget])
          | jnull =>
            have e : suggest oc (.parsed (.jobj kvs)) = ⟨500, err500body "unknown", 0⟩ := by
              simp [suggest, ht, hx]
            rw [e] at h
            exact absurd h (by decide)
          | jbool b =>
            have e : suggest oc (.parsed (.jobj kvs)) = ⟨500, err500body "unknown", 0⟩ := by
              simp [suggest, ht, hx]
            rw [e] at h
            exact absurd h (by decide)
          | jnum n =>
            have e : suggest oc (.parsed (.jobj kvs)) = ⟨500, err500body "unknown", 0⟩ := by
              simp [suggest, ht, hx]
            rw [e] at h
            exact absurd h (by decide)
          | jarr xs =>
            have e : suggest oc (.parsed (.jobj kvs)) = ⟨500, err500body "unknown", 0⟩ := by
              simp [suggest, ht, hx]
            rw [e] at h
            exact absurd h (by decide)
          | jobj o2 =>
            have e : suggest oc (.parsed (.jobj kvs)) = ⟨500, err500body "unknown", 0⟩ := by
              simp [suggest, ht, hx]
            rw [e] at h
            exact absurd h (by decide)
      | jnull => exact absurd ht (by decide)
      | jbool b => exact absurd h (by simp [suggest, ht, err500body, jgetBool, jgetV, jget])
      | jnum n => exact absurd h (by simp [suggest, ht, err500body, jgetBool, jgetV, jget])
      | jstr s => exact absurd h (by simp [suggest, ht, err500body, jgetBool, jgetV, jget])
      | jarr xs => exact absurd h (by simp [suggest, ht, err500body, jgetBool, jgetV, jget])

/-- C1, counterexample: a valid request (text "hi") whose completion content
is a JSON object with the three required keys but only two suggested
replies is answered with status 200 and a replies array of length 2, not 3.
The handler validates key presence only, never the length of the array, so
the claim that the replies field always has exactly 3 entries is false. -/
theorem c1_counterexample :
    (suggest (.ok twoReplyContent) (.parsed (.jobj [("text", .jstr "hi")]))).status = 200
      ∧ jarrLen (suggest (.ok twoReplyContent)
          (.parsed (.jobj [("text", .jstr "hi")]))).body "suggested_replies" = some 2
      ∧ jarrLen (suggest (.ok twoReplyContent)
          (.parsed (.jobj [("text", .jstr "hi")]))).body "suggested_replies" ≠ some 3
      ∧ jgetStr (suggest (.ok twoReplyContent)
          (.parsed (.jobj [("text", .jstr "hi")]))).body "original_text" = some "hi" := by
  exact ⟨by decide, by decide, by decide, by decide⟩

/-- C1, amended: for every request whose body is a JSON dict with a string
text field that strips to a non-empty string of at most 500 characters,
the response has status 200, its original_text equals the stripped input,
and it carries corrected_text and suggested_replies fields; the replies
field has exactly 3 entries whenever the result does not come from a
validated model object, and is the model's value verbatim when it does. -/
theorem c1_valid_input_response (oc : ApiOutcome) (kvs : JObj) (s : String)
    (hget : jget kvs "text" = some (.jstr s)) (hne : pyStrip s ≠ "")
    (hlen : (pyStrip s).length ≤ 500) :
    (suggest oc (.parsed (.jobj kvs))).status = 200
      ∧ jgetStr (suggest oc (.parsed (.jobj kvs))).body "original_text"
          = some (pyStrip s)
      ∧ jhasV (suggest oc (.parsed (.jobj kvs))).body "corrected_text" = true
      ∧ jhasV (suggest oc (.parsed (.jobj kvs))).body "suggested_replies" = true
      ∧ (modelObj oc = none →
          jarrLen (suggest oc (.parsed (.jobj kvs))).body "suggested_replies" = some 3)
      ∧ (∀ o, modelObj oc = some o →
          jgetV (suggest oc (.parsed (.jobj kvs))).body "suggested_replies"
            = jget o "suggested_replies") := by
  obtain ⟨o, hg⟩ := gen_isObj oc (pyStrip s)
  rw [suggest_textfield oc kvs s hget, suggestWithText_ok oc (pyStrip s) o hne hlen hg]
  obtain ⟨hk1, hk2, _⟩ := gen_keys oc (pyStrip s) o hg
  obtain ⟨hr3, hrm⟩ := gen_replies oc (pyStrip s) o hg
  refine ⟨rfl, ?_, ?_, ?_, ?_, ?_⟩
  · simp [jgetStr, jgetV, jget_addMeta_orig]
  · simp [jhasV, jhas_addMeta_mono _ _ _ hk1]
  · simp [jhasV, jhas_addMeta_mono _ _ _ hk2]
  · intro hmo
    obtain ⟨xs, hxs, hlen3⟩ := hr3 hmo
    simp [jarrLen, jgetV,
      jget_addMeta_other o (pyStrip s) "suggested_replies" (by decide) (by decide) (by decide),
      hxs, hlen3]
  · intro m hm
    rw [show jgetV (JVal.jobj (addMeta o (pyStrip s))) "suggested_replies"
        = jget (addMeta o (pyStrip s)) "suggested_replies" from rfl,
      jget_addMeta_other o (pyStrip s) "suggested_replies" (by decide) (by decide) (by decide)]
    exact hrm m hm

/-- C1, witness: the amended theorem applied to the request text "hola"
with a failed external call. -/
theorem c1_witness :
    (suggest .otherError (.parsed (.jobj [("text", .jstr "hola")]))).status = 200
      ∧ jgetStr (suggest .otherError (.parsed (.jobj [("text", .jstr "hola")]))).body
          "original_text" = some (pyStrip "hola")
      ∧ jhasV (suggest .otherError (.parsed (.jobj [("text", .jstr "hola")]))).body
          "corrected_text" = true
      ∧ jhasV (suggest .otherError (.parsed (.jobj [("text", .jstr "hola")]))).body
          "suggested_replies" = true
      ∧ (modelObj .otherError = none →
          jarrLen (suggest .otherError (.parsed (.jobj [("text", .jstr "hola")]))).body
            "suggested_replies" = some 3)
      ∧ (∀ o, modelObj .otherError = some o →
          jgetV (suggest .otherError (.parsed (.jobj [("text", .jstr "hola")]))).body
            "suggested_replies" = jget o "suggested_replies") :=
  c1_valid_input_response .otherError [("text", .jstr "hola")] "hola" rfl
    (by decide) (by decide)

/-- C2: evaluating the fallback path at the input "helo cant meet today"
yields the corrected text "Helo can't meet today": the interior token
" cant " is replaced and the first letter is capitalized, but the leading
token "helo" is not replaced because every substitution pattern requires a
space on both sides, so the result does not contain "hello" as the claim
and the repository's own /test example expect. -/
theorem c2_fallback_on_failing_input :
    jgetStr (.jobj (get_fallback_response "helo cant meet today")) "corrected_text"
        = some "Helo can't meet today"
      ∧ hasSub "hello".data "Helo can't meet today".data = false
      ∧ hasSub "can't".data "Helo can't meet today".data = true
      ∧ "Helo can't meet today".data.head? = some 'H' := by
  exact ⟨by decide, by decide, by decide, by decide⟩

/-- C3: a request body that is not parseable as JSON makes
request.get_json() raise; the catch-all except turns this into the 500
internal-error payload, so the response status is 500 and not 400,
contradicting the claim. -/
theorem c3_unparseable_body_500 (oc : ApiOutcome) :
    (suggest oc .unparseable).status = 500
      ∧ (suggest oc .unparseable).status ≠ 400
      ∧ jhasV (suggest oc .unparseable).body "error" = true := by
  refine ⟨rfl, ?_, rfl⟩
  intro hcon
  have h5 : (500 : Nat) = 400 := hcon
  exact absurd h5 (by decide)

/-- C4, counterexample: an authentication failure of the external call does
not return the fallback result: it returns the fixed key-error payload,
whose corrected text is the input unchanged (the fallback would capitalize
it) and which carries an error field that the endpoint surfaces as
success equal to false. -/
theorem c4_counterexample :
    jhasV (get_smart_suggestions .authError "hi") "error" = true
      ∧ jhasV (.jobj (get_fallback_response "hi")) "error" = false
      ∧ jgetStr (get_smart_suggestions .authError "hi") "corrected_text" = some "hi"
      ∧ jgetStr (.jobj (get_fallback_response "hi")) "corrected_text" = some "Hi"
      ∧ get_smart_suggestions .authError "hi" ≠ .jobj (get_fallback_response "hi")
      ∧ jgetBool (suggest .authError (.parsed (.jobj [("text", .jstr "hi")]))).body
          "success" = some false := by
  refine ⟨by decide, by decide, by decide, by decide, ?_, by decide⟩
  intro hcon
  have h1 : jhasV (get_smart_suggestions .authError "hi") "error" = true := by decide
  rw [hcon] at h1
  exact absurd h1 (by decide)

/-- C4, amended: the suggestion generator is a total function that never
raises to its caller; an external failure other than authentication and
rate-limiting degrades to the fallback, as does a completion from which no
validated JSON object can be extracted; authentication and rate-limit
failures return their fixed error payloads instead of the fallback. -/
theorem c4_failure_mode_payloads (t c : String) :
    get_smart_suggestions .otherError t = .jobj (get_fallback_response t)
      ∧ (tryModel c = none →
          get_smart_suggestions (.ok c) t = .jobj (get_fallback_response t))
      ∧ get_smart_suggestions .authError t = .jobj (authErrorPayload t)
      ∧ get_smart_suggestions .rateLimitError t = .jobj (rateLimitPayload t) := by
  refine ⟨rfl, ?_, rfl, rfl⟩
  intro htm
  simp [get_smart_suggestions, htm]

/-- C4, witness: the amended theorem applied to the text "hi" and a
completion content with no JSON object in it. -/
theorem c4_witness :
    get_smart_suggestions (.ok "no json here") "hi"
      = .jobj (get_fallback_response "hi") :=
  (c4_failure_mode_payloads "hi" "no json here").2.1 rfl

/-- C5: a request whose text field strips to the empty string is answered
with status 400, an error field in the body, and never with 200. -/
theorem c5_empty_text_400 (oc : ApiOutcome) (kvs : JObj) (s : String)
    (hget : jget kvs "text" = some (.jstr s)) (hempty : pyStrip s = "") :
    (suggest oc (.parsed (.jobj kvs))).status = 400
      ∧ jhasV (suggest oc (.parsed (.jobj kvs))).body "error" = true
      ∧ (suggest oc (.parsed (.jobj kvs))).status ≠ 200 := by
  rw [suggest_textfield oc kvs s hget, hempty]
  refine ⟨rfl, rfl, ?_⟩
  intro hcon
  have h4 : (400 : Nat) = 200 := hcon
  exact absurd h4 (by decide)

/-- C5, witness: the theorem applied to a whitespace-only text field. -/
theorem c5_witness :
    (suggest .otherError (.parsed (.jobj [("text", .jstr "   ")]))).status = 400
      ∧ jhasV (suggest .otherError (.parsed (.jobj [("text", .jstr "   ")]))).body
          "error" = true
      ∧ (suggest .otherError (.parsed (.jobj [("text", .jstr "   ")]))).status ≠ 200 :=
  c5_empty_text_400 .otherError [("text", .jstr "   ")] "   " rfl (by decide)

/-- C6: whenever the response body of /suggest reports success true, the
body carries all three advertised keys: corrected_text, suggested_replies
and similar_phrases. -/
theorem c6_success_implies_keys (oc : ApiOutcome) (body : ReqBody)
    (h : jgetBool (suggest oc body).body "success" = some true) :
    jhasV (suggest oc body).body "corrected_text" = true
      ∧ jhasV (suggest oc body).body "suggested_replies" = true
      ∧ jhasV (suggest oc body).body "similar_phrases" = true := by
  obtain ⟨t, o, hg, hbody⟩ := suggest_success_shape oc body h
  obtain ⟨h1, h2, h3⟩ := gen_keys oc t o hg
  rw [hbody]
  exact ⟨by simp [jhasV, jhas_addMeta_mono _ _ _ h1],
    by simp [jhasV, jhas_addMeta_mono _ _ _ h2],
    by simp [jhasV, jhas_addMeta_mono _ _ _ h3]⟩

/-- C6, witness: the theorem applied to a fallback-path request whose
response has success true. -/
theorem c6_witness :
    jhasV (suggest .otherError (.parsed (.jobj [("text", .jstr "yo")]))).body
        "corrected_text" = true
      ∧ jhasV (suggest .otherError (.parsed (.jobj [("text", .jstr "yo")]))).body
          "suggested_replies" = true
      ∧ jhasV (suggest .otherError (.parsed (.jobj [("text", .jstr "yo")]))).body
          "similar_phrases" = true :=
  c6_success_implies_keys .otherError (.parsed (.jobj [("text", .jstr "yo")]))
    (by decide)

/-- C7: a request whose text field strips to more than 500 characters is
answered with status 400. -/
theorem c7_overlong_text_400 (oc : ApiOutcome) (kvs : JObj) (s : String)
    (hget : jget kvs "text" = some (.jstr s)) (hlen : (pyStrip s).length > 500) :
    (suggest oc (.parsed (.jobj kvs))).status = 400 := by
  rw [suggest_textfield oc kvs s hget]
  have h1 : (pyStrip s).isEmpty = false := by
    rcases h : (pyStrip s).isEmpty with _ | _
    · rfl
    · rw [(String.isEmpty_iff _).mp h] at hlen
      exact absurd hlen (by decide)
  simp [suggestWithText, h1, hlen]

/-- C7, witness: the theorem applied to a 501-character text. -/
theorem c7_witness :
    (suggest .otherError (.parsed (.jobj [("text", .jstr longText)]))).status = 400 :=
  c7_overlong_text_400 .otherError [("text", .jstr longText)] longText rfl (by decide)

/-- C8, counterexample: with the credential set to the empty string, the
health route reports openai_configured false even though a credential is
set, because bool applied to an empty Python string is false; the claimed
equivalence with "no credential is set" therefore fails. -/
theorem c8_counterexample :
    jgetBool (health (some "")).body "openai_configured" = some false
      ∧ some "" ≠ (none : Option String)
      ∧ (health (some "")).apiCalls = 0 :=
  ⟨by decide, by decide, rfl⟩

/-- C8, amended: the health route reports openai_configured false exactly
when the credential is unset or set to the empty string, true otherwise,
and performs no external completion call. -/
theorem c8_health_flag (k : Option String) :
    jgetBool (health k).body "openai_configured" = some (pyTruthyKey k)
      ∧ ((pyTruthyKey k = false) ↔ (k = none ∨ k = some ""))
      ∧ (health k).apiCalls = 0 := by
  refine ⟨rfl, ?_, rfl⟩
  cases k with
  | none => simp [pyTruthyKey]
  | some s => simp [pyTruthyKey, String.isEmpty_iff]

/-- C9: for a valid request, both an authentication error and a rate-limit
error of the external call are answered with status 200, success false, an
error field present, and a corrected_text equal to the stripped input text
unchanged (which is also the response's original_text). -/
theorem c9_auth_rate_limit_200 (kvs : JObj) (s : String)
    (hget : jget kvs "text" = some (.jstr s)) (hne : pyStrip s ≠ "")
    (hlen : (pyStrip s).length ≤ 500) :
    ((suggest .authError (.parsed (.jobj kvs))).status = 200
      ∧ jgetBool (suggest .authError (.parsed (.jobj kvs))).body "success" = some false
      ∧ jhasV (suggest .authError (.parsed (.jobj kvs))).body "error" = true
      ∧ jgetStr (suggest .authError (.parsed (.jobj kvs))).body "corrected_text"
          = some (pyStrip s)
      ∧ jgetStr (suggest .authError (.parsed (.jobj kvs))).body "original_text"
          = some (pyStrip s))
    ∧ ((suggest .rateLimitError (.parsed (.jobj kvs))).status = 200
      ∧ jgetBool (suggest .rateLimitError (.parsed (.jobj kvs))).body "success"
          = some false
      ∧ jhasV (suggest .rateLimitError (.parsed (.jobj kvs))).body "error" = true
      ∧ jgetStr (suggest .rateLimitError (.parsed (.jobj kvs))).body "corrected_text"
          = some (pyStrip s)
      ∧ jgetStr (suggest .rateLimitError (.parsed (.jobj kvs))).body "original_text"
          = some (pyStrip s)) := by
  constructor
  · rw [suggest_textfield .authError kvs s hget,
      suggestWithText_ok .authError (pyStrip s) (authErrorPayload (pyStrip s)) hne hlen rfl]
    have herr : jhas (authErrorPayload (pyStrip s)) "error" = true := rfl
    refine ⟨rfl, ?_, ?_, ?_, ?_⟩
    · simp [jgetBool, jgetV, jget_addMeta_success, herr]
    · simp [jhasV, jhas_addMeta_mono _ _ _ herr]
    · simp [jgetStr, jgetV, jget_addMeta_other (authErrorPayload (pyStrip s)) (pyStrip s)
        "corrected_text" (by decide) (by decide) (by decide), authErrorPayload, jget]
    · simp [jgetStr, jgetV, jget_addMeta_orig]
  · rw [suggest_textfield .rateLimitError kvs s hget,
      suggestWithText_ok .rateLimitError (pyStrip s) (rateLimitPayload (pyStrip s)) hne hlen rfl]
    have herr : jhas (rateLimitPayload (pyStrip s)) "error" = true := rfl
    refine ⟨rfl, ?_, ?_, ?_, ?_⟩
    · simp [jgetBool, jgetV, jget_addMeta_success, herr]
    · simp [jhasV, jhas_addMeta_mono _ _ _ herr]
    · simp [jgetStr, jgetV, jget_addMeta_other (rateLimitPayload (pyStrip s)) (pyStrip s)
        "corrected_text" (by decide) (by decide) (by decide), rateLimitPayload, jget]
    · simp [jgetStr, jgetV, jget_addMeta_orig]

/-- C9, witness: the theorem applied to the request text "yo". -/
theorem c9_witness :
    ((suggest .authError (.parsed (.jobj [("text", .jstr "yo")]))).status = 200
      ∧ jgetBool (suggest .authError (.parsed (.jobj [("text", .jstr "yo")]))).body
          "success" = some false
      ∧ jhasV (suggest .authError (.parsed (.jobj [("text", .jstr "yo")]))).body
          "error" = true
      ∧ jgetStr (suggest .authError (.parsed (.jobj [("text", .jstr "yo")]))).body
          "corrected_text" = some (pyStrip "yo")
      ∧ jgetStr (suggest .authError (.parsed (.jobj [("text", .jstr "yo")]))).body
          "original_text" = some (pyStrip "yo"))
    ∧ ((suggest .rateLimitError (.parsed (.jobj [("text", .jstr "yo")]))).status = 200
      ∧ jgetBool (suggest .rateLimitError (.parsed (.jobj [("text", .jstr "yo")]))).body
          "success" = some false
      ∧ jhasV (suggest .rateLimitError (.parsed (.jobj [("text", .jstr "yo")]))).body
          "error" = true
      ∧ jgetStr (suggest .rateLimitError (.parsed (.jobj [("text", .jstr "yo")]))).body
          "corrected_text" = some (pyStrip "yo")
      ∧ jgetStr (suggest .rateLimitError (.parsed (.jobj [("text", .jstr "yo")]))).body
          "original_text" = some (pyStrip "yo")) :=
  c9_auth_rate_limit_200 [("text", .jstr "yo")] "yo" rfl (by decide) (by decide)

/-- C10: every substitution pattern of the fallback table is flanked by a
space on both sides; a pattern that does not occur in the text (such as
" helo " when "helo" sits at position 0 without a leading space) changes
nothing; and concretely the leading "helo" of "helo cant meet today" and
the trailing "u" of "see u" are left unreplaced while the interior
" cant " is replaced. -/
theorem c10_flanked_substitutions :
    (fixes.all (fun p =>
        (p.1.data.head? == some ' ') && (p.1.data.getLast? == some ' ')) = true)
      ∧ (∀ s : String, hasSub " helo ".data s.data = false →
          pyReplace s " helo " " hello " = s)
      ∧ jgetStr (.jobj (get_fallback_response "helo cant meet today")) "corrected_text"
          = some "Helo can't meet today"
      ∧ jgetStr (.jobj (get_fallback_response "see u")) "corrected_text" = some "See u" := by
  refine ⟨by decide, ?_, by decide, by decide⟩
  intro s h
  have h2 : replaceAux ' ' "helo ".data " hello ".data s.data.length s.data = s.data :=
    replaceAux_no_occur ' ' "helo ".data " hello ".data s.data.length s.data h
  show String.mk (pyReplaceL " helo ".data " hello ".data s.data) = s
  have h3 : pyReplaceL " helo ".data " hello ".data s.data
      = replaceAux ' ' "helo ".data " hello ".data s.data.length s.data := rfl
  rw [h3, h2]

/-- C10, witness: the no-occurrence part applied to a text whose leading
token is "helo" with no surrounding spaces. -/
theorem c10_witness : pyReplace "helo x" " helo " " hello " = "helo x" :=
  c10_flanked_substitutions.2.1 "helo x" (by decide)

end AiTextReply
